import Mathlib

/-!
Verification development for the trade-performance analytics engine
(`src/app.py`).  Python floats are modelled as exact rationals (`ℚ`),
Python `None` as `Option.none`, and Python dict rows as Lean structures.
Each definition below is a direct transcription of the corresponding
source function.
-/

/-- The fixed point-value instrument catalog (`INSTRUMENTS` in the source):
dollars per point for each futures symbol. -/
def INSTRUMENTS : List (String × ℚ) :=
  [("NQ", 20), ("MNQ", 2), ("ES", 50), ("MES", 5), ("GC", 100), ("MGC", 10)]

/-- `INSTRUMENTS.get(symbol)`: dictionary lookup, `None` for unknown keys. -/
def instrumentsGet : Option String → Option ℚ
  | none => none
  | some s => (INSTRUMENTS.find? (fun p => p.1 == s)).map (fun p => p.2)

/-- The forex pair list (`FOREX_PAIRS` in the source). -/
def FOREX_PAIRS : List String := ["EURUSD", "GBPUSD", "USDJPY", "AUDUSD"]

/-- `instrument in FOREX_PAIRS` (Python membership; `None` is never a member). -/
def inForex : Option String → Bool
  | none => false
  | some s => FOREX_PAIRS.contains s

/-- Python `str.isspace` for the characters stripped by `str.strip()`. -/
def pyIsSpace (c : Char) : Bool :=
  c = ' ' ∨ c = '\t' ∨ c = '\n' ∨ c = '\r' ∨ c = '\x0b' ∨ c = '\x0c'

/-- Python `str.strip()`: drop leading and trailing whitespace. -/
def pyStrip (s : String) : String :=
  ⟨((s.data.dropWhile pyIsSpace).reverse.dropWhile pyIsSpace).reverse⟩

/-- Python `str.lower()` (ASCII case mapping, which covers every catalog
symbol and direction variant the engine compares against). -/
def pyLower (s : String) : String := ⟨s.data.map Char.toLower⟩

/-- Python `str.upper()` (ASCII case mapping). -/
def pyUpper (s : String) : String := ⟨s.data.map Char.toUpper⟩

/-- Python `str.endswith(suf)`. -/
def pyEndsWith (s suf : String) : Bool := suf.data.isSuffixOf s.data

/-- Python truthiness of an optional string: `None` and `""` are falsy. -/
def pyTruthyStr : Option String → Bool
  | none => false
  | some s => !s.isEmpty

/-- `normalize_instrument`: strip and upper-case; empty result becomes `None`. -/
def normalize_instrument : Option String → Option String
  | none => none
  | some value =>
    let v := pyUpper (pyStrip value)
    if v.isEmpty then none else some v

/-- `normalize_direction`: map the free-text variants to `"Long"` / `"Short"`
and return anything unrecognized unchanged. -/
def normalize_direction : Option String → Option String
  | none => none
  | some value =>
    let v := pyLower (pyStrip value)
    if v = "long" ∨ v = "l" ∨ v = "buy" ∨ v = "bull" then some "Long"
    else if v = "short" ∨ v = "s" ∨ v = "sell" ∨ v = "bear" then some "Short"
    else some value

/-- Leap year under the proleptic Gregorian rules used by `datetime.date`. -/
def isLeapYear (y : Nat) : Bool :=
  (y % 4 == 0 && y % 100 != 0) || y % 400 == 0

/-- Days in a month, as validated by `datetime.date`. -/
def daysInMonth (y m : Nat) : Nat :=
  if m = 2 then (if isLeapYear y then 29 else 28)
  else if m = 4 ∨ m = 6 ∨ m = 9 ∨ m = 11 then 30
  else 31

/-- `datetime.strptime(s, "%Y-%m-%d")` succeeding: three dash-separated
digit groups (year up to 4 digits, month/day up to 2) forming a valid
civil date with year ≥ 1. -/
def parseDateYMD (s : String) : Bool :=
  match s.splitOn "-" with
  | [y, m, d] =>
    match y.toNat?, m.toNat?, d.toNat? with
    | some yv, some mv, some dv =>
      decide (y.length ≤ 4 ∧ m.length ≤ 2 ∧ d.length ≤ 2 ∧
        1 ≤ yv ∧ yv ≤ 9999 ∧ 1 ≤ mv ∧ mv ≤ 12 ∧ 1 ≤ dv ∧ dv ≤ daysInMonth yv mv)
    | _, _, _ => false
  | _ => false

/-- `datetime.strptime(s, "%H:%M")`: returns minutes since midnight. -/
def parseTimeHM (s : String) : Option Nat :=
  match s.splitOn ":" with
  | [h, m] =>
    match h.toNat?, m.toNat? with
    | some hv, some mv =>
      if h.length ≤ 2 ∧ m.length ≤ 2 ∧ hv < 24 ∧ mv < 60
      then some (hv * 60 + mv) else none
    | _, _ => none
  | _ => none

/-- `compute_duration_minutes`: absent or unparsable inputs give `None`;
an exit clock time earlier than the entry clock time wraps by 24 hours. -/
def compute_duration_minutes
    (date_str entry_time_str exit_time_str : Option String) : Option ℚ :=
  match date_str, entry_time_str, exit_time_str with
  | some ds, some es, some xs =>
    if ds.isEmpty ∨ es.isEmpty ∨ xs.isEmpty then none
    else if parseDateYMD ds then
      match parseTimeHM es, parseTimeHM xs with
      | some em, some xm =>
        some (((if xm < em then xm + 1440 else xm : Nat) : ℚ) - (em : ℚ))
      | _, _ => none
    else none
  | _, _, _ => none

/-- The `COMPUTED_COLUMNS` row produced by `compute_metrics`: every field
is independently optional. -/
structure ComputedMetrics where
  points : Option ℚ
  pnl_gross : Option ℚ
  pnl_net : Option ℚ
  pnl_per_contract : Option ℚ
  r_multiple : Option ℚ
  target_r : Option ℚ
  mfe_points : Option ℚ
  mae_points : Option ℚ
  mfe_r : Option ℚ
  mae_r : Option ℚ
  missed_pnl : Option ℚ
  risk_dollars : Option ℚ
  risk_percent_actual : Option ℚ
  duration_minutes : Option ℚ
deriving Repr, DecidableEq

/-- `{col: None for col in COMPUTED_COLUMNS}`: the all-`None` row returned
for incomplete trades. -/
def emptyMetrics : ComputedMetrics :=
  ⟨none, none, none, none, none, none, none, none, none, none, none, none, none, none⟩

/-- `pip_size = 0.01 if instrument.endswith("JPY") else 0.0001`. -/
def pipSizeFor (inst : String) : ℚ :=
  if pyEndsWith inst "JPY" then 1/100 else 1/10000

/-- `ref_price = entry if entry and entry > 0 else exit_price` (the USDJPY
pip-value reference price). -/
def refPriceFor (entry exit_price : ℚ) : ℚ :=
  if entry ≠ 0 ∧ entry > 0 then entry else exit_price

/-- The forex `pip_value`: `1000/ref_price` for USDJPY (0 if the reference
price is 0), a flat `10` dollars per pip per lot otherwise. -/
def pipValueFor (inst : String) (entry exit_price : ℚ) : ℚ :=
  if inst = "USDJPY" then
    (if refPriceFor entry exit_price ≠ 0 then 1000 / refPriceFor entry exit_price else 0)
  else 10

/-- `lots = contracts if contracts else 1`: a falsy (zero) size becomes 1 lot. -/
def lotsFor (contracts : ℚ) : ℚ := if contracts ≠ 0 then contracts else 1

/-- The forex branch of `compute_metrics` (the `instrument in FOREX_PAIRS`
block), transcribed with `points` already computed by the caller. -/
def forexMetrics (inst : String) (direction : Option String)
    (entry stop exit_price : ℚ) (take_profit : Option ℚ) (contracts : ℚ)
    (points commission_val slippage_val : ℚ)
    (max_favorable max_adverse account_size : Option ℚ)
    (dur : Option ℚ) : ComputedMetrics :=
  let pip_size : ℚ := pipSizeFor inst
  let pips : ℚ := if pip_size ≠ 0 then points / pip_size else 0
  let lots : ℚ := lotsFor contracts
  let pip_value : ℚ := pipValueFor inst entry exit_price
  let pnl_gross := pips * pip_value * lots
  let pnl_net := pnl_gross - commission_val - slippage_val
  let pnl_per_contract : Option ℚ := if lots ≠ 0 then some (pnl_net / lots) else none
  let risk_pips : Option ℚ :=
    if pip_size ≠ 0 then some (|entry - stop| / pip_size) else none
  let risk_dollars : Option ℚ := risk_pips.map (fun rp => rp * pip_value * lots)
  let r_multiple : Option ℚ :=
    match risk_dollars with
    | some rd => if rd ≠ 0 then some (pnl_net / rd) else none
    | none => none
  let target_r : Option ℚ :=
    match take_profit, risk_pips with
    | some tp, some rp =>
      if rp ≠ 0 then
        some (((if direction = some "Long" then tp - entry else entry - tp) / pip_size) / rp)
      else none
    | _, _ => none
  let mfe_points : Option ℚ := max_favorable.map
    (fun m => (if direction = some "Long" then m - entry else entry - m) / pip_size)
  let mae_points : Option ℚ := max_adverse.map
    (fun m => (if direction = some "Long" then entry - m else m - entry) / pip_size)
  let mfe_r : Option ℚ :=
    match mfe_points, risk_pips with
    | some mp, some rp => if rp ≠ 0 then some (mp / rp) else none
    | _, _ => none
  let mae_r : Option ℚ :=
    match mae_points, risk_pips with
    | some mp, some rp => if rp ≠ 0 then some (mp / rp) else none
    | _, _ => none
  let missed_pnl : Option ℚ := mfe_points.map (fun mp => (mp - pips) * pip_value * lots)
  let risk_percent_actual : Option ℚ :=
    match account_size, risk_dollars with
    | some a, some rd => if a ≠ 0 then some (rd / a * 100) else none
    | _, _ => none
  ⟨some pips, some pnl_gross, some pnl_net, pnl_per_contract, r_multiple, target_r,
   mfe_points, mae_points, mfe_r, mae_r, missed_pnl, risk_dollars,
   risk_percent_actual, dur⟩

/-- The point-value branch of `compute_metrics` (after the `per_point`
lookup succeeded), transcribed with `points` already computed. -/
def pointMetrics (per_point : ℚ) (direction : Option String)
    (entry stop _exit_price : ℚ) (take_profit : Option ℚ) (contracts : ℚ)
    (points commission_val slippage_val : ℚ)
    (max_favorable max_adverse account_size : Option ℚ)
    (dur : Option ℚ) : ComputedMetrics :=
  let pnl_gross := points * per_point * contracts
  let pnl_net := pnl_gross - commission_val - slippage_val
  let pnl_per_contract : Option ℚ :=
    if contracts ≠ 0 then some (pnl_net / contracts) else none
  let risk_points : ℚ := |entry - stop|
  let risk_dollars : ℚ := risk_points * per_point * contracts
  let r_multiple : Option ℚ :=
    if risk_points ≠ 0 then some (points / risk_points) else none
  let target_r : Option ℚ :=
    match take_profit with
    | some tp =>
      if risk_points ≠ 0 then
        some ((if direction = some "Long" then tp - entry else entry - tp) / risk_points)
      else none
    | none => none
  let mfe_points : Option ℚ := max_favorable.map
    (fun m => if direction = some "Long" then m - entry else entry - m)
  let mae_points : Option ℚ := max_adverse.map
    (fun m => if direction = some "Long" then entry - m else m - entry)
  let mfe_r : Option ℚ :=
    match mfe_points with
    | some mp => if risk_points ≠ 0 then some (mp / risk_points) else none
    | none => none
  let mae_r : Option ℚ :=
    match mae_points with
    | some mp => if risk_points ≠ 0 then some (mp / risk_points) else none
    | none => none
  let missed_pnl : Option ℚ := mfe_points.map
    (fun mp => (mp - points) * per_point * contracts)
  let risk_percent_actual : Option ℚ :=
    match account_size with
    | some a => if a ≠ 0 then some (risk_dollars / a * 100) else none
    | none => none
  ⟨some points, some pnl_gross, some pnl_net, pnl_per_contract, r_multiple, target_r,
   mfe_points, mae_points, mfe_r, mae_r, missed_pnl, some risk_dollars,
   risk_percent_actual, dur⟩

/-- `compute_metrics`: the per-trade metric derivation.  Missing required
inputs, an unknown instrument, or a falsy instrument/direction short-circuit
to the all-`None` row; otherwise the forex or point-value branch runs. -/
def compute_metrics (instrument direction : Option String)
    (entry stop exit_price take_profit contracts commission slippage
     max_favorable max_adverse account_size : Option ℚ)
    (date_str entry_time_str exit_time_str : Option String) : ComputedMetrics :=
  if ¬ pyTruthyStr instrument ∨ ¬ pyTruthyStr direction then emptyMetrics
  else
    let ninst := normalize_instrument instrument
    let per_point := instrumentsGet ninst
    match entry, stop, exit_price, contracts with
    | some entry, some stop, some exit_price, some contracts =>
      let points : ℚ :=
        if direction = some "Long" then exit_price - entry else entry - exit_price
      let commission_val : ℚ := commission.getD 0
      let slippage_val : ℚ := slippage.getD 0
      let dur := compute_duration_minutes date_str entry_time_str exit_time_str
      if inForex ninst then
        match ninst with
        | some inst =>
          forexMetrics inst direction entry stop exit_price take_profit contracts
            points commission_val slippage_val max_favorable max_adverse account_size dur
        | none => emptyMetrics
      else
        match per_point with
        | some pp =>
          pointMetrics pp direction entry stop exit_price take_profit contracts
            points commission_val slippage_val max_favorable max_adverse account_size dur
        | none => emptyMetrics
    | _, _, _, _ => emptyMetrics

/-- `clamp01`: clamp a value into `[0, 1]`. -/
def clamp01 (x : ℚ) : ℚ := max 0 (min 1 x)

/-- `scale_linear`: linear map of `value` from `[lo, hi]` onto `[0, 100]`,
clamped; degenerate bounds give 0. -/
def scale_linear (value lo hi : ℚ) : ℚ :=
  if hi = lo then 0 else clamp01 ((value - lo) / (hi - lo)) * 100

/-- Helper for `cumsum`: running sums starting from an accumulator. -/
def cumsumFrom (acc : ℚ) : List ℚ → List ℚ
  | [] => []
  | x :: xs => (acc + x) :: cumsumFrom (acc + x) xs

/-- `Series.cumsum()`: running prefix sums. -/
def cumsum : List ℚ → List ℚ :=
  fun l => cumsumFrom 0 l

/-- Helper for `runningMax`: running maxima continuing from a seen peak. -/
def runningMaxFrom (m : ℚ) : List ℚ → List ℚ
  | [] => []
  | x :: xs => max m x :: runningMaxFrom (max m x) xs

/-- `Series.cummax()`: running maxima. -/
def runningMax : List ℚ → List ℚ
  | [] => []
  | x :: xs => x :: runningMaxFrom x xs

/-- `Series.min()` of a nonempty series (0 for the empty series, which the
callers guard against). -/
def seriesMin : List ℚ → ℚ
  | [] => 0
  | x :: xs => xs.foldl min x

/-- The drawdown series built by the dashboard and by `_max_drawdown`:
`equity - equity.cummax()` where `equity` is the cumulative PnL. -/
def drawdownSeries (pnl : List ℚ) : List ℚ :=
  List.zipWith (fun a b => a - b) (cumsum pnl) (runningMax (cumsum pnl))

/-- `_max_drawdown`: absolute value of the minimum of `equity - cummax`,
and 0 for the empty series. -/
def max_drawdown_of (equity : List ℚ) : ℚ :=
  if equity.isEmpty then 0
  else |seriesMin (List.zipWith (fun a b => a - b) equity (runningMax equity))|

/-- The output of `compute_zylo_score`: the overall score, the five
component scores, and the raw inputs they were scaled from. -/
structure ZyloScore where
  overall : ℚ
  win_pct_score : ℚ
  profit_factor_score : ℚ
  win_loss_score : ℚ
  consistency_score : ℚ
  drawdown_score : ℚ
  raw_win_rate : ℚ
  raw_profit_factor : ℚ
  raw_avg_win_loss : ℚ
  raw_consistency : ℚ
  raw_max_drawdown : ℚ
deriving Repr, DecidableEq

/-- `compute_zylo_score`: `pnls` is the selected PnL column of the trade
view in date-sorted order, `daily` the summed PnL column of the daily
table.  Transcribed from the source: win rate, average win/loss, profit
factor, drawdown on the trade-level equity curve, consistency over trading
days, then the fixed linear scalings and the fixed weighted sum. -/
def compute_zylo_score (pnls daily : List ℚ) : ZyloScore :=
  let total_trades := pnls.length
  let winsList := pnls.filter (fun p => 0 < p)
  let lossesList := pnls.filter (fun p => p < 0)
  let wins := winsList.length
  let win_rate : ℚ := if total_trades ≠ 0 then (wins : ℚ) / (total_trades : ℚ) * 100 else 0
  let avg_win : ℚ := if winsList.isEmpty then 0 else winsList.sum / (winsList.length : ℚ)
  let avg_loss : ℚ := if lossesList.isEmpty then 0 else lossesList.sum / (lossesList.length : ℚ)
  let win_loss_ratio : ℚ := if avg_loss ≠ 0 then avg_win / |avg_loss| else 0
  let loss_sum : ℚ := if lossesList.isEmpty then 0 else lossesList.sum
  let profit_factor : ℚ := if loss_sum ≠ 0 then winsList.sum / |loss_sum| else 0
  let equity := cumsum pnls
  let drawdown := List.zipWith (fun a b => a - b) equity (runningMax equity)
  let max_drawdown : ℚ := if pnls.isEmpty then 0 else |seriesMin drawdown|
  let total_pnl : ℚ := if total_trades ≠ 0 then pnls.sum else 0
  let consistency : ℚ :=
    if daily.isEmpty then 0
    else ((daily.filter (fun p => 0 < p)).length : ℚ) / (daily.length : ℚ) * 100
  let win_pct_score := scale_linear win_rate 35 70
  let profit_factor_score := scale_linear profit_factor 1 (5/2)
  let win_loss_score := scale_linear win_loss_ratio (4/5) (5/2)
  let consistency_score := scale_linear consistency 40 75
  let drawdown_score : ℚ :=
    if |total_pnl| > 0 then (1 - clamp01 ((max_drawdown / |total_pnl|) / (3/2))) * 100
    else if max_drawdown = 0 then 100 else 0
  let overall₀ :=
    win_pct_score * (24/100) + profit_factor_score * (22/100) +
    win_loss_score * (18/100) + consistency_score * (18/100) +
    drawdown_score * (18/100)
  let overall := max 0 (min 100 overall₀)
  ⟨overall, win_pct_score, profit_factor_score, win_loss_score, consistency_score,
   drawdown_score, win_rate, profit_factor, win_loss_ratio, consistency, max_drawdown⟩

/-- The `for w in reversed(wins): ... break` loop of `compute_streaks`:
count of leading `true`s. -/
def countLeadingWins : List Bool → Nat
  | true :: xs => countLeadingWins xs + 1
  | _ => 0

/-- The record-streak loop of `compute_streaks`: running run length and
running record. -/
def recordRun : List Bool → Nat → Nat → Nat
  | [], _, record => record
  | w :: ws, run, record =>
    if w then recordRun ws (run + 1) (max record (run + 1)) else recordRun ws 0 record

/-- One `{current, record}` pair from `compute_streaks`. -/
structure Streaks where
  current : Nat
  record : Nat
deriving Repr, DecidableEq

/-- The daily part of `compute_streaks`: `pnl` is the date-sorted daily
PnL column; a win day has strictly positive PnL. -/
def compute_streaks_daily (pnl : List ℚ) : Streaks :=
  let wins := pnl.map (fun p => decide (0 < p))
  ⟨countLeadingWins wins.reverse, recordRun wins 0 0⟩

/-- The win/loss flag list `(d["pnl"] > 0).tolist()` used by `compute_streaks`. -/
def winFlags (pnl : List ℚ) : List Bool := pnl.map (fun q => decide (0 < q))

/-- Reduction of `compute_metrics` to its point-value branch when the
preconditions hold and the instrument is a known non-forex symbol. -/
theorem compute_metrics_point_reduce
    (instrument direction : Option String) (ni : Option String) (pp : ℚ)
    (e s x : ℚ) (tp : Option ℚ) (ct : ℚ) (comm slip mfe mae acct : Option ℚ)
    (ds es xs : Option String)
    (h1 : pyTruthyStr instrument = true) (h2 : pyTruthyStr direction = true)
    (h3 : normalize_instrument instrument = ni)
    (h4 : inForex ni = false) (h5 : instrumentsGet ni = some pp) :
    compute_metrics instrument direction (some e) (some s) (some x) tp (some ct)
      comm slip mfe mae acct ds es xs =
    pointMetrics pp direction e s x tp ct
      (if direction = some "Long" then x - e else e - x)
      (comm.getD 0) (slip.getD 0) mfe mae acct
      (compute_duration_minutes ds es xs) := by
  simp [compute_metrics, h1, h2, h3, h4, h5]

/-- Reduction of `compute_metrics` to its forex branch when the
preconditions hold and the normalized instrument is a forex pair. -/
theorem compute_metrics_forex_reduce
    (instrument direction : Option String) (n : String)
    (e s x : ℚ) (tp : Option ℚ) (ct : ℚ) (comm slip mfe mae acct : Option ℚ)
    (ds es xs : Option String)
    (h1 : pyTruthyStr instrument = true) (h2 : pyTruthyStr direction = true)
    (h3 : normalize_instrument instrument = some n)
    (h4 : inForex (some n) = true) :
    compute_metrics instrument direction (some e) (some s) (some x) tp (some ct)
      comm slip mfe mae acct ds es xs =
    forexMetrics n direction e s x tp ct
      (if direction = some "Long" then x - e else e - x)
      (comm.getD 0) (slip.getD 0) mfe mae acct
      (compute_duration_minutes ds es xs) := by
  simp [compute_metrics, h1, h2, h3, h4]

/-- C4: `compute_metrics` returns the all-`None` row whenever the instrument
or direction is absent/falsy, any of entry/stop/exit/size is absent, or the
normalized instrument is in neither the point-value catalog nor the forex
list.  The Lean embedding is a total function, mirroring the source, which
raises no exception on any such input. -/
theorem compute_metrics_incomplete_all_none
    (instrument direction : Option String)
    (entry stop exit_price take_profit contracts commission slippage
     max_favorable max_adverse account_size : Option ℚ)
    (ds es xs : Option String)
    (h : pyTruthyStr instrument = false ∨ pyTruthyStr direction = false ∨
         entry = none ∨ stop = none ∨ exit_price = none ∨ contracts = none ∨
         (instrumentsGet (normalize_instrument instrument) = none ∧
          inForex (normalize_instrument instrument) = false)) :
    compute_metrics instrument direction entry stop exit_price take_profit contracts
      commission slippage max_favorable max_adverse account_size ds es xs = emptyMetrics := by
  rcases h with h | h | h | h | h | h | ⟨hg, hf⟩
  · simp [compute_metrics, h]
  · simp [compute_metrics, h]
  · subst h
    unfold compute_metrics
    split
    · rfl
    · rfl
  · subst h
    unfold compute_metrics
    split
    · rfl
    · cases entry <;> rfl
  · subst h
    unfold compute_metrics
    split
    · rfl
    · cases entry <;> cases stop <;> rfl
  · subst h
    unfold compute_metrics
    split
    · rfl
    · cases entry <;> cases stop <;> cases exit_price <;> rfl
  · unfold compute_metrics
    split
    · rfl
    · cases entry <;> cases stop <;> cases exit_price <;> cases contracts <;>
        simp [hf, hg]

/-- Witness for C4 at a concrete incomplete input (missing entry price). -/
theorem compute_metrics_incomplete_witness :
    compute_metrics (some "NQ") (some "Long") none (some 1) (some 2) none (some 1)
      none none none none none none none none = emptyMetrics :=
  compute_metrics_incomplete_all_none _ _ _ _ _ _ _ _ _ _ _ _ _ _ _
    (Or.inr (Or.inr (Or.inl rfl)))

/-- C3 counterexample: `"hold"` is not a recognized Long/Short variant and
`normalize_direction` returns it unchanged, yet the pipeline
`compute_metrics (normalize_direction ...)` computes Short-convention
metrics (`points = entry - exit = -10`) instead of the all-`None` row. -/
theorem unrecognized_direction_counterexample :
    normalize_direction (some "hold") = some "hold" ∧
    (compute_metrics (some "NQ") (normalize_direction (some "hold")) (some 100) (some 90)
      (some 110) none (some 1) none none none none none none none none).points =
      some (-10) := by
  have hn : normalize_direction (some "hold") = some "hold" := by decide
  refine ⟨hn, ?_⟩
  rw [hn, compute_metrics_point_reduce (some "NQ") (some "hold") (some "NQ") 20 100 90 110
    none 1 none none none none none none none none (by decide) (by decide) (by decide)
    (by decide) (by decide)]
  have hne : ("hold" : String) ≠ "Long" := by decide
  norm_num [pointMetrics, hne]

/-- C3 amended: `normalize_direction` maps "buy"/"long"/"l"/"bull" to Long
and "sell"/"short"/"s"/"bear" to Short and returns anything else unchanged;
`compute_metrics` then treats every direction other than exactly `"Long"`
by the Short formula, so an unrecognized non-empty direction yields
Short-convention metrics (`points = entry - exit`), not an incomplete
trade.  Only an absent or empty direction produces the all-`None` row. -/
theorem unrecognized_direction_short_metrics (v : String) (e s x ct : ℚ)
    (h1 : normalize_direction (some v) = some v) (h2 : v ≠ "") (h3 : v ≠ "Long") :
    (compute_metrics (some "NQ") (normalize_direction (some v)) (some e) (some s) (some x)
      none (some ct) none none none none none none none none).points = some (e - x) := by
  rw [h1]
  have hie : v.isEmpty = false := by
    cases hb : v.isEmpty with
    | false => rfl
    | true => exact absurd ((String.isEmpty_iff v).mp hb) h2
  have htr : pyTruthyStr (some v) = true := by simp [pyTruthyStr, hie]
  rw [compute_metrics_point_reduce (some "NQ") (some v) (some "NQ") 20 e s x
    none ct none none none none none none none none (by decide) htr (by decide) (by decide)
    (by decide)]
  simp [pointMetrics, h3]

/-- Witness for the C3 amended theorem at the concrete input `"hold"`. -/
theorem unrecognized_direction_short_metrics_witness :
    normalize_direction (some "hold") = some "hold" ∧ "hold" ≠ "" ∧ "hold" ≠ "Long" ∧
    (compute_metrics (some "NQ") (normalize_direction (some "hold")) (some 105) (some 95)
      (some 120) none (some 2) none none none none none none none none).points =
      some (105 - 120) :=
  ⟨by decide, by decide, by decide,
   unrecognized_direction_short_metrics "hold" 105 95 120 2 (by decide) (by decide) (by decide)⟩

/-- The pip size is never zero (it is 1/100 or 1/10000). -/
theorem pipSizeFor_ne_zero (inst : String) : pipSizeFor inst ≠ 0 := by
  unfold pipSizeFor; split <;> norm_num

/-- Field `points` of the forex branch: the pip count `points / pip_size`. -/
theorem forexMetrics_points (inst : String) (direction : Option String)
    (e s x : ℚ) (tp : Option ℚ) (ct pts cm sl : ℚ) (mfe mae acct : Option ℚ)
    (dur : Option ℚ) :
    (forexMetrics inst direction e s x tp ct pts cm sl mfe mae acct dur).points =
    some (pts / pipSizeFor inst) := by
  show some (if pipSizeFor inst ≠ 0 then pts / pipSizeFor inst else 0) = _
  rw [if_pos (pipSizeFor_ne_zero inst)]

/-- Field `pnl_gross` of the forex branch. -/
theorem forexMetrics_pnl_gross (inst : String) (direction : Option String)
    (e s x : ℚ) (tp : Option ℚ) (ct pts cm sl : ℚ) (mfe mae acct : Option ℚ)
    (dur : Option ℚ) :
    (forexMetrics inst direction e s x tp ct pts cm sl mfe mae acct dur).pnl_gross =
    some (pts / pipSizeFor inst * pipValueFor inst e x * lotsFor ct) := by
  show some ((if pipSizeFor inst ≠ 0 then pts / pipSizeFor inst else 0) *
    pipValueFor inst e x * lotsFor ct) = _
  rw [if_pos (pipSizeFor_ne_zero inst)]

/-- Field `pnl_net` of the forex branch. -/
theorem forexMetrics_pnl_net (inst : String) (direction : Option String)
    (e s x : ℚ) (tp : Option ℚ) (ct pts cm sl : ℚ) (mfe mae acct : Option ℚ)
    (dur : Option ℚ) :
    (forexMetrics inst direction e s x tp ct pts cm sl mfe mae acct dur).pnl_net =
    some (pts / pipSizeFor inst * pipValueFor inst e x * lotsFor ct - cm - sl) := by
  show some ((if pipSizeFor inst ≠ 0 then pts / pipSizeFor inst else 0) *
    pipValueFor inst e x * lotsFor ct - cm - sl) = _
  rw [if_pos (pipSizeFor_ne_zero inst)]

/-- Field `risk_dollars` of the forex branch. -/
theorem forexMetrics_risk_dollars (inst : String) (direction : Option String)
    (e s x : ℚ) (tp : Option ℚ) (ct pts cm sl : ℚ) (mfe mae acct : Option ℚ)
    (dur : Option ℚ) :
    (forexMetrics inst direction e s x tp ct pts cm sl mfe mae acct dur).risk_dollars =
    some (|e - s| / pipSizeFor inst * pipValueFor inst e x * lotsFor ct) := by
  show Option.map _ (if pipSizeFor inst ≠ 0 then some (|e - s| / pipSizeFor inst) else none) = _
  rw [if_pos (pipSizeFor_ne_zero inst)]
  rfl

/-- Field `r_multiple` of the forex branch: `pnl_net / risk_dollars`, guarded
by `risk_dollars ≠ 0`. -/
theorem forexMetrics_r_multiple (inst : String) (direction : Option String)
    (e s x : ℚ) (tp : Option ℚ) (ct pts cm sl : ℚ) (mfe mae acct : Option ℚ)
    (dur : Option ℚ)
    (hrd : |e - s| / pipSizeFor inst * pipValueFor inst e x * lotsFor ct ≠ 0) :
    (forexMetrics inst direction e s x tp ct pts cm sl mfe mae acct dur).r_multiple =
    some ((pts / pipSizeFor inst * pipValueFor inst e x * lotsFor ct - cm - sl) /
      (|e - s| / pipSizeFor inst * pipValueFor inst e x * lotsFor ct)) := by
  show (match Option.map (fun rp => rp * pipValueFor inst e x * lotsFor ct)
      (if pipSizeFor inst ≠ 0 then some (|e - s| / pipSizeFor inst) else none) with
    | some rd => if rd ≠ 0 then
        some (((if pipSizeFor inst ≠ 0 then pts / pipSizeFor inst else 0) *
          pipValueFor inst e x * lotsFor ct - cm - sl) / rd) else none
    | none => none) = _
  rw [if_pos (pipSizeFor_ne_zero inst)]
  simp only [Option.map_some']
  rw [if_pos hrd, if_pos (pipSizeFor_ne_zero inst)]

/-- Field `points` of the point-value branch. -/
theorem pointMetrics_points (pp : ℚ) (direction : Option String)
    (e s x : ℚ) (tp : Option ℚ) (ct pts cm sl : ℚ) (mfe mae acct : Option ℚ)
    (dur : Option ℚ) :
    (pointMetrics pp direction e s x tp ct pts cm sl mfe mae acct dur).points =
    some pts := rfl

/-- Field `pnl_gross` of the point-value branch. -/
theorem pointMetrics_pnl_gross (pp : ℚ) (direction : Option String)
    (e s x : ℚ) (tp : Option ℚ) (ct pts cm sl : ℚ) (mfe mae acct : Option ℚ)
    (dur : Option ℚ) :
    (pointMetrics pp direction e s x tp ct pts cm sl mfe mae acct dur).pnl_gross =
    some (pts * pp * ct) := rfl

/-- Field `pnl_net` of the point-value branch. -/
theorem pointMetrics_pnl_net (pp : ℚ) (direction : Option String)
    (e s x : ℚ) (tp : Option ℚ) (ct pts cm sl : ℚ) (mfe mae acct : Option ℚ)
    (dur : Option ℚ) :
    (pointMetrics pp direction e s x tp ct pts cm sl mfe mae acct dur).pnl_net =
    some (pts * pp * ct - cm - sl) := rfl

/-- Field `pnl_per_contract` of the point-value branch. -/
theorem pointMetrics_pnl_per_contract (pp : ℚ) (direction : Option String)
    (e s x : ℚ) (tp : Option ℚ) (ct pts cm sl : ℚ) (mfe mae acct : Option ℚ)
    (dur : Option ℚ) :
    (pointMetrics pp direction e s x tp ct pts cm sl mfe mae acct dur).pnl_per_contract =
    (if ct ≠ 0 then some ((pts * pp * ct - cm - sl) / ct) else none) := rfl

/-- Field `risk_dollars` of the point-value branch. -/
theorem pointMetrics_risk_dollars (pp : ℚ) (direction : Option String)
    (e s x : ℚ) (tp : Option ℚ) (ct pts cm sl : ℚ) (mfe mae acct : Option ℚ)
    (dur : Option ℚ) :
    (pointMetrics pp direction e s x tp ct pts cm sl mfe mae acct dur).risk_dollars =
    some (|e - s| * pp * ct) := rfl

/-- Field `r_multiple` of the point-value branch: `points / risk_points`,
guarded by `risk_points ≠ 0`; commission and slippage do not enter. -/
theorem pointMetrics_r_multiple (pp : ℚ) (direction : Option String)
    (e s x : ℚ) (tp : Option ℚ) (ct pts cm sl : ℚ) (mfe mae acct : Option ℚ)
    (dur : Option ℚ) :
    (pointMetrics pp direction e s x tp ct pts cm sl mfe mae acct dur).r_multiple =
    (if |e - s| ≠ 0 then some (pts / |e - s|) else none) := rfl

/-- C5: for every valid trade (preconditions met, direction Long or Short),
the directional delta is `exit - entry` for Long and `entry - exit` for
Short; point-value instruments store that delta in `points` unchanged,
while pip-convention instruments store the delta divided by `pip_size`
(a pip count), not price units. -/
theorem points_sign_convention
    (instrument direction : Option String) (ni : String)
    (e s x : ℚ) (tp : Option ℚ) (ct : ℚ) (comm slip mfe mae acct : Option ℚ)
    (ds es xs : Option String)
    (h1 : pyTruthyStr instrument = true)
    (hdir : direction = some "Long" ∨ direction = some "Short")
    (h3 : normalize_instrument instrument = some ni) :
    (∀ pp : ℚ, inForex (some ni) = false → instrumentsGet (some ni) = some pp →
      (compute_metrics instrument direction (some e) (some s) (some x) tp (some ct)
        comm slip mfe mae acct ds es xs).points =
        some (if direction = some "Long" then x - e else e - x)) ∧
    (inForex (some ni) = true →
      (compute_metrics instrument direction (some e) (some s) (some x) tp (some ct)
        comm slip mfe mae acct ds es xs).points =
        some ((if direction = some "Long" then x - e else e - x) / pipSizeFor ni)) := by
  have h2 : pyTruthyStr direction = true := by
    rcases hdir with h | h <;> subst h <;> decide
  constructor
  · intro pp hf hg
    rw [compute_metrics_point_reduce instrument direction (some ni) pp e s x tp ct
      comm slip mfe mae acct ds es xs h1 h2 h3 hf hg]
    rw [pointMetrics_points]
  · intro hf
    rw [compute_metrics_forex_reduce instrument direction ni e s x tp ct
      comm slip mfe mae acct ds es xs h1 h2 h3 hf]
    rw [forexMetrics_points]

/-- Witness for C5 at a concrete NQ Long trade. -/
theorem points_sign_convention_witness :
    pyTruthyStr (some "NQ") = true ∧
    ((some "Long" : Option String) = some "Long" ∨ (some "Long" : Option String) = some "Short") ∧
    normalize_instrument (some "NQ") = some "NQ" ∧
    (compute_metrics (some "NQ") (some "Long") (some 10) (some 8) (some 14) none (some 1)
      none none none none none none none none).points =
      some (if (some "Long" : Option String) = some "Long" then 14 - 10 else 10 - 14) :=
  ⟨by decide, Or.inl rfl, by decide,
   (points_sign_convention (some "NQ") (some "Long") "NQ" 10 8 14 none 1 none none none none
     none none none none (by decide) (Or.inl rfl) (by decide)).1 20 (by decide) (by decide)⟩

/-- `lots` equals the given size when it is nonzero. -/
theorem lotsFor_of_ne_zero (ct : ℚ) (h : ct ≠ 0) : lotsFor ct = ct := if_pos h

/-- A zero (falsy) size is silently replaced by 1 lot. -/
theorem lotsFor_zero : lotsFor 0 = 1 := if_neg (by norm_num)

/-- C6: the two worked examples of §8.  NQ ($20/point) Long
entry 18000 / stop 17980 / exit 18050, size 1, commission 4, slippage 1:
points 50, gross 1000, net 995, risk points 20, risk dollars 400,
R-multiple 2.5.  USDJPY Long entry 150.00 / stop 149.50 / exit 150.75,
1 lot: pip size 0.01, 75 pips stored in `points`, pip value
1000/150 = 20/3 (≈ 6.667), gross exactly 500, risk 50 pips and
1000/3 ≈ 333.33 dollars, R-multiple exactly 3/2. -/
theorem worked_examples :
    ((compute_metrics (some "NQ") (some "Long") (some 18000) (some 17980) (some 18050) none
        (some 1) (some 4) (some 1) none none none none none none).points = some 50 ∧
     (compute_metrics (some "NQ") (some "Long") (some 18000) (some 17980) (some 18050) none
        (some 1) (some 4) (some 1) none none none none none none).pnl_gross = some 1000 ∧
     (compute_metrics (some "NQ") (some "Long") (some 18000) (some 17980) (some 18050) none
        (some 1) (some 4) (some 1) none none none none none none).pnl_net = some 995 ∧
     |(18000 : ℚ) - 17980| = 20 ∧
     (compute_metrics (some "NQ") (some "Long") (some 18000) (some 17980) (some 18050) none
        (some 1) (some 4) (some 1) none none none none none none).risk_dollars = some 400 ∧
     (compute_metrics (some "NQ") (some "Long") (some 18000) (some 17980) (some 18050) none
        (some 1) (some 4) (some 1) none none none none none none).r_multiple = some (5/2)) ∧
    (pipSizeFor "USDJPY" = 1/100 ∧
     (compute_metrics (some "USDJPY") (some "Long") (some 150) (some 149.5) (some 150.75) none
        (some 1) none none none none none none none none).points = some 75 ∧
     pipValueFor "USDJPY" 150 150.75 = 1000/150 ∧ ((1000 : ℚ)/150 = 20/3) ∧
     (compute_metrics (some "USDJPY") (some "Long") (some 150) (some 149.5) (some 150.75) none
        (some 1) none none none none none none none none).pnl_gross = some 500 ∧
     |(150 : ℚ) - 149.5| / pipSizeFor "USDJPY" = 50 ∧
     (compute_metrics (some "USDJPY") (some "Long") (some 150) (some 149.5) (some 150.75) none
        (some 1) none none none none none none none none).risk_dollars = some (1000/3) ∧
     (compute_metrics (some "USDJPY") (some "Long") (some 150) (some 149.5) (some 150.75) none
        (some 1) none none none none none none none none).r_multiple = some (3/2)) := by
  have habs1 : |(18000 : ℚ) - 17980| = 20 := by
    rw [(by norm_num : (18000 : ℚ) - 17980 = 20)]
    exact abs_of_nonneg (by norm_num)
  have habs2 : |(150 : ℚ) - 149.5| = 1/2 := by
    rw [(by norm_num : (150 : ℚ) - 149.5 = 1/2)]
    exact abs_of_nonneg (by norm_num)
  have hps : pipSizeFor "USDJPY" = 1/100 := by
    unfold pipSizeFor
    rw [if_pos (by decide : pyEndsWith "USDJPY" "JPY" = true)]
  have hpv : pipValueFor "USDJPY" 150 150.75 = 1000/150 := by
    unfold pipValueFor refPriceFor
    rw [if_pos rfl, if_pos (by norm_num : (150 : ℚ) ≠ 0 ∧ (150 : ℚ) > 0),
      if_pos (by norm_num : (150 : ℚ) ≠ 0)]
  have hlots : lotsFor 1 = 1 := lotsFor_of_ne_zero 1 (by norm_num)
  have hred1 := compute_metrics_point_reduce (some "NQ") (some "Long") (some "NQ") 20
    18000 17980 18050 none 1 (some 4) (some 1) none none none none none none
    (by decide) (by decide) (by decide) (by decide) (by decide)
  have hred2 := compute_metrics_forex_reduce (some "USDJPY") (some "Long") "USDJPY"
    150 149.5 150.75 none 1 none none none none none none none none
    (by decide) (by decide) (by decide) (by decide)
  have hrd : |(150 : ℚ) - 149.5| / pipSizeFor "USDJPY" * pipValueFor "USDJPY" 150 150.75 *
      lotsFor 1 ≠ 0 := by
    rw [habs2, hps, hpv, hlots]; norm_num
  refine ⟨⟨?_, ?_, ?_, habs1, ?_, ?_⟩, hps, ?_, hpv, by norm_num, ?_, ?_, ?_, ?_⟩
  · rw [hred1, pointMetrics_points]; norm_num
  · rw [hred1, pointMetrics_pnl_gross]; norm_num
  · rw [hred1, pointMetrics_pnl_net]; norm_num
  · rw [hred1, pointMetrics_risk_dollars, habs1]; norm_num
  · rw [hred1, pointMetrics_r_multiple, habs1]
    rw [if_pos (by norm_num : (20 : ℚ) ≠ 0)]
    norm_num
  · rw [hred2, forexMetrics_points, hps]; norm_num
  · rw [hred2, forexMetrics_pnl_gross, hps, hpv, hlots]; norm_num
  · rw [habs2, hps]; norm_num
  · rw [hred2, forexMetrics_risk_dollars, habs2, hps, hpv, hlots]; norm_num
  · rw [hred2, forexMetrics_r_multiple _ _ _ _ _ _ _ _ _ _ _ _ _ _ hrd, habs2, hps, hpv, hlots]
    norm_num

/-- Pip size of a JPY-quoted pair is 0.01. -/
theorem pipSizeFor_of_jpy (inst : String) (h : pyEndsWith inst "JPY" = true) :
    pipSizeFor inst = 1/100 := by
  unfold pipSizeFor; rw [if_pos h]

/-- Pip size of a non-JPY pair is 0.0001. -/
theorem pipSizeFor_of_not_jpy (inst : String) (h : pyEndsWith inst "JPY" = false) :
    pipSizeFor inst = 1/10000 := by
  unfold pipSizeFor; rw [if_neg]; simp [h]

/-- Pip value of a non-USDJPY pair is the flat $10 per pip per lot. -/
theorem pipValueFor_of_not_usdjpy (inst : String) (e x : ℚ) (h : inst ≠ "USDJPY") :
    pipValueFor inst e x = 10 := by
  unfold pipValueFor; rw [if_neg h]

/-- C1 counterexample: EURUSD Long, entry 1.10, stop 1.095, exit 1.11,
size 1 lot, commission 10, slippage absent.  The pip delta over the risk in
pips is exactly 2, but the code computes `r_multiple = pnl_net/risk_dollars
= 990/500 = 1.98`, so the forex R-multiple is not `pips / risk_pips` and
does depend on commission. -/
theorem forex_r_multiple_counterexample :
    (compute_metrics (some "EURUSD") (some "Long") (some (11/10)) (some (219/200))
      (some (111/100)) none (some 1) (some 10) none none none none none none
      none).r_multiple = some (99/50) ∧
    ((111/100 - 11/10 : ℚ) / pipSizeFor "EURUSD") /
      (|(11/10 : ℚ) - 219/200| / pipSizeFor "EURUSD") = 2 ∧
    (99/50 : ℚ) ≠ 2 := by
  have hpsE : pipSizeFor "EURUSD" = 1/10000 := pipSizeFor_of_not_jpy _ (by decide)
  have hpvE : pipValueFor "EURUSD" (11/10) (111/100) = 10 :=
    pipValueFor_of_not_usdjpy _ _ _ (by decide)
  have habs : |(11/10 : ℚ) - 219/200| = 1/200 := by
    rw [(by norm_num : (11/10 : ℚ) - 219/200 = 1/200)]
    exact abs_of_nonneg (by norm_num)
  have hlots : lotsFor 1 = 1 := lotsFor_of_ne_zero 1 (by norm_num)
  have hrd : |(11/10 : ℚ) - 219/200| / pipSizeFor "EURUSD" *
      pipValueFor "EURUSD" (11/10) (111/100) * lotsFor 1 ≠ 0 := by
    rw [habs, hpsE, hpvE, hlots]; norm_num
  have hred := compute_metrics_forex_reduce (some "EURUSD") (some "Long") "EURUSD"
    (11/10) (219/200) (111/100) none 1 (some 10) none none none none none none none
    (by decide) (by decide) (by decide) (by decide)
  refine ⟨?_, ?_, by norm_num⟩
  · rw [hred, forexMetrics_r_multiple _ _ _ _ _ _ _ _ _ _ _ _ _ _ hrd, habs, hpsE, hpvE, hlots]
    norm_num
  · rw [habs, hpsE]; norm_num

/-- C1 amended: in the forex branch `r_multiple = pnl_net / risk_dollars`
(when `risk_dollars` is nonzero, else `None`), which subtracts commission
and slippage in the numerator; it coincides with `pips / risk_pips` exactly
when commission and slippage are zero. -/
theorem forex_r_multiple_formula
    (instrument direction : Option String) (n : String)
    (e s x ct cm sl : ℚ) (tp mfe mae acct : Option ℚ) (ds es xs : Option String)
    (h1 : pyTruthyStr instrument = true) (h2 : pyTruthyStr direction = true)
    (h3 : normalize_instrument instrument = some n) (h4 : inForex (some n) = true)
    (hrd : |e - s| / pipSizeFor n * pipValueFor n e x * lotsFor ct ≠ 0) :
    (compute_metrics instrument direction (some e) (some s) (some x) tp (some ct)
        (some cm) (some sl) mfe mae acct ds es xs).r_multiple =
      some (((if direction = some "Long" then x - e else e - x) / pipSizeFor n *
          pipValueFor n e x * lotsFor ct - cm - sl) /
        (|e - s| / pipSizeFor n * pipValueFor n e x * lotsFor ct)) ∧
    (cm = 0 → sl = 0 →
      (compute_metrics instrument direction (some e) (some s) (some x) tp (some ct)
        (some cm) (some sl) mfe mae acct ds es xs).r_multiple =
      some (((if direction = some "Long" then x - e else e - x) / pipSizeFor n) /
        (|e - s| / pipSizeFor n))) := by
  have hred := compute_metrics_forex_reduce instrument direction n e s x tp ct
    (some cm) (some sl) mfe mae acct ds es xs h1 h2 h3 h4
  have hmain : (compute_metrics instrument direction (some e) (some s) (some x) tp (some ct)
        (some cm) (some sl) mfe mae acct ds es xs).r_multiple =
      some (((if direction = some "Long" then x - e else e - x) / pipSizeFor n *
          pipValueFor n e x * lotsFor ct - cm - sl) /
        (|e - s| / pipSizeFor n * pipValueFor n e x * lotsFor ct)) := by
    rw [hred, forexMetrics_r_multiple _ _ _ _ _ _ _ _ _ _ _ _ _ _ hrd]
    simp only [Option.getD_some]
  refine ⟨hmain, fun hcm hsl => ?_⟩
  subst hcm; subst hsl
  rw [hmain]
  have hK : pipValueFor n e x * lotsFor ct ≠ 0 := by
    intro h0
    exact hrd (by rw [mul_assoc, h0, mul_zero])
  congr 1
  rw [sub_zero, sub_zero, mul_assoc, mul_assoc, mul_div_mul_right _ _ hK]

/-- Witness for the C1 amended theorem: EURUSD with zero commission and
slippage, where the R-multiple reduces to `pips / risk_pips`. -/
theorem forex_r_multiple_formula_witness :
    (|(11/10 : ℚ) - 219/200| / pipSizeFor "EURUSD" *
      pipValueFor "EURUSD" (11/10) (111/100) * lotsFor 1 ≠ 0) ∧
    (compute_metrics (some "EURUSD") (some "Long") (some (11/10)) (some (219/200))
      (some (111/100)) none (some 1) (some 0) (some 0) none none none none none
      none).r_multiple =
      some (((if (some "Long" : Option String) = some "Long"
          then 111/100 - 11/10 else 11/10 - 111/100) / pipSizeFor "EURUSD") /
        (|(11/10 : ℚ) - 219/200| / pipSizeFor "EURUSD")) := by
  have habs : |(11/10 : ℚ) - 219/200| = 1/200 := by
    rw [(by norm_num : (11/10 : ℚ) - 219/200 = 1/200)]
    exact abs_of_nonneg (by norm_num)
  have hrd : |(11/10 : ℚ) - 219/200| / pipSizeFor "EURUSD" *
      pipValueFor "EURUSD" (11/10) (111/100) * lotsFor 1 ≠ 0 := by
    rw [habs, pipSizeFor_of_not_jpy _ (by decide), pipValueFor_of_not_usdjpy _ _ _ (by decide),
      lotsFor_of_ne_zero 1 (by norm_num)]
    norm_num
  exact ⟨hrd, (forex_r_multiple_formula (some "EURUSD") (some "Long") "EURUSD"
    (11/10) (219/200) (111/100) 1 0 0 none none none none none none none
    (by decide) (by decide) (by decide) (by decide) hrd).2 rfl rfl⟩

/-- Changing the raw size without changing `lots` leaves the forex branch
output unchanged (the size enters only through `lots`). -/
theorem forexMetrics_lots_congr (inst : String) (direction : Option String)
    (e s x : ℚ) (tp : Option ℚ) (ct ct' : ℚ) (pts cm sl : ℚ)
    (mfe mae acct : Option ℚ) (dur : Option ℚ)
    (h : lotsFor ct = lotsFor ct') :
    forexMetrics inst direction e s x tp ct pts cm sl mfe mae acct dur =
    forexMetrics inst direction e s x tp ct' pts cm sl mfe mae acct dur := by
  unfold forexMetrics
  rw [h]

/-- C10: a forex trade whose size is present but 0 is computed exactly as
if the size were 1 lot (`lots = contracts if contracts else 1`), whereas a
point-value trade with size 0 keeps the zero size: gross P&L is 0 and
P&L-per-unit is `None`. -/
theorem zero_contracts_behavior
    (instrument direction : Option String) (n : String)
    (e s x : ℚ) (tp comm slip mfe mae acct : Option ℚ) (ds es xs : Option String)
    (h1 : pyTruthyStr instrument = true) (h2 : pyTruthyStr direction = true)
    (h3 : normalize_instrument instrument = some n) :
    (inForex (some n) = true →
      compute_metrics instrument direction (some e) (some s) (some x) tp (some 0)
        comm slip mfe mae acct ds es xs =
      compute_metrics instrument direction (some e) (some s) (some x) tp (some 1)
        comm slip mfe mae acct ds es xs) ∧
    (∀ pp : ℚ, inForex (some n) = false → instrumentsGet (some n) = some pp →
      (compute_metrics instrument direction (some e) (some s) (some x) tp (some 0)
        comm slip mfe mae acct ds es xs).pnl_gross = some 0 ∧
      (compute_metrics instrument direction (some e) (some s) (some x) tp (some 0)
        comm slip mfe mae acct ds es xs).pnl_per_contract = none) := by
  constructor
  · intro hf
    rw [compute_metrics_forex_reduce instrument direction n e s x tp 0
        comm slip mfe mae acct ds es xs h1 h2 h3 hf,
      compute_metrics_forex_reduce instrument direction n e s x tp 1
        comm slip mfe mae acct ds es xs h1 h2 h3 hf]
    exact forexMetrics_lots_congr _ _ _ _ _ _ _ _ _ _ _ _ _ _ _
      (by rw [lotsFor_zero, lotsFor_of_ne_zero 1 (by norm_num)])
  · intro pp hf hg
    rw [compute_metrics_point_reduce instrument direction (some n) pp e s x tp 0
      comm slip mfe mae acct ds es xs h1 h2 h3 hf hg]
    constructor
    · rw [pointMetrics_pnl_gross]; norm_num
    · rw [pointMetrics_pnl_per_contract, if_neg (by norm_num)]

/-- Witness for C10: EURUSD size 0 equals size 1; NQ size 0 gives zero
gross P&L and no P&L-per-unit. -/
theorem zero_contracts_behavior_witness :
    (compute_metrics (some "EURUSD") (some "Long") (some 1) (some 2) (some 3) none (some 0)
      none none none none none none none none =
     compute_metrics (some "EURUSD") (some "Long") (some 1) (some 2) (some 3) none (some 1)
      none none none none none none none none) ∧
    ((compute_metrics (some "NQ") (some "Long") (some 1) (some 2) (some 3) none (some 0)
      none none none none none none none none).pnl_gross = some 0 ∧
     (compute_metrics (some "NQ") (some "Long") (some 1) (some 2) (some 3) none (some 0)
      none none none none none none none none).pnl_per_contract = none) :=
  ⟨(zero_contracts_behavior (some "EURUSD") (some "Long") "EURUSD" 1 2 3 none none none
      none none none none none none (by decide) (by decide) (by decide)).1 (by decide),
   (zero_contracts_behavior (some "NQ") (some "Long") "NQ" 1 2 3 none none none
      none none none none none none (by decide) (by decide) (by decide)).2 20
      (by decide) (by decide)⟩

/-- `clamp01` stays within `[0, 1]`. -/
theorem clamp01_nonneg (x : ℚ) : 0 ≤ clamp01 x := le_max_left 0 _

/-- `clamp01` is at most 1. -/
theorem clamp01_le_one (x : ℚ) : clamp01 x ≤ 1 :=
  max_le (by norm_num) (min_le_left 1 x)

/-- `scale_linear` always lands in `[0, 100]`, whatever the raw input. -/
theorem scale_linear_mem (value lo hi : ℚ) :
    0 ≤ scale_linear value lo hi ∧ scale_linear value lo hi ≤ 100 := by
  unfold scale_linear
  split
  · norm_num
  · constructor
    · have := clamp01_nonneg ((value - lo) / (hi - lo))
      nlinarith
    · have := clamp01_le_one ((value - lo) / (hi - lo))
      nlinarith

/-- The shape of the Max Drawdown component score is in `[0, 100]` for any
raw total PnL and drawdown magnitude. -/
theorem dd_score_shape_mem (t md : ℚ) :
    0 ≤ (if |t| > 0 then (1 - clamp01 ((md / |t|) / (3/2))) * 100
      else if md = 0 then (100 : ℚ) else 0) ∧
    (if |t| > 0 then (1 - clamp01 ((md / |t|) / (3/2))) * 100
      else if md = 0 then (100 : ℚ) else 0) ≤ 100 := by
  split
  · have h1 := clamp01_nonneg ((md / |t|) / (3/2))
    have h2 := clamp01_le_one ((md / |t|) / (3/2))
    constructor <;> nlinarith
  · split <;> norm_num

/-- The Max Drawdown component score of `compute_zylo_score` is in `[0, 100]`. -/
theorem zylo_drawdown_score_mem (pnls daily : List ℚ) :
    0 ≤ (compute_zylo_score pnls daily).drawdown_score ∧
    (compute_zylo_score pnls daily).drawdown_score ≤ 100 :=
  dd_score_shape_mem _ _

/-- The raw profit-factor input collapses to 0 whenever the loss list is
empty, regardless of wins (`profit_factor = ... if loss_sum != 0 else 0`). -/
theorem pf_shape (wl ll : List ℚ) (h : ll = []) :
    (if (if ll.isEmpty then (0 : ℚ) else ll.sum) ≠ 0 then
      wl.sum / |if ll.isEmpty then (0 : ℚ) else ll.sum| else 0) = 0 := by
  subst h; norm_num

/-- C2 counterexample: the trade set `[10]` has one winning trade and no
losing trades, yet the Profit Factor component score is 0, not 100: the
code maps the no-losses case to a raw profit factor of 0, which the
`[1.0, 2.5]` scaling clamps to the bottom of the range. -/
theorem profit_factor_score_counterexample :
    ((0 : ℚ) < 10 ∧ ¬ (10 : ℚ) < 0) ∧
    (compute_zylo_score [10] [10]).profit_factor_score = 0 ∧
    (compute_zylo_score [10] [10]).profit_factor_score ≠ 100 := by
  have hfil : ([10] : List ℚ).filter (fun p => p < 0) = [] := by
    simp only [List.filter]
    norm_num
  have hraw : (compute_zylo_score [10] [10]).raw_profit_factor = 0 :=
    pf_shape (([10] : List ℚ).filter (fun p => 0 < p)) (([10] : List ℚ).filter (fun p => p < 0)) hfil
  have hs : (compute_zylo_score [10] [10]).profit_factor_score =
      scale_linear (compute_zylo_score [10] [10]).raw_profit_factor 1 (5/2) := rfl
  have h0 : (compute_zylo_score [10] [10]).profit_factor_score = 0 := by
    rw [hs, hraw]; unfold scale_linear clamp01; norm_num [min_def, max_def]
  exact ⟨⟨by norm_num, by norm_num⟩, h0, by rw [h0]; norm_num⟩

/-- C2 amended: when the trade set contains at least one winning trade and
no losing trades, `compute_zylo_score` does NOT treat the profit factor as
unbounded-good: the `loss_sum != 0` guard fails, the raw profit-factor
input is 0, and the Profit Factor component score is 0 (the separate
`_profit_factor` helper returns infinity in this case, but the scoring
engine does not use it). -/
theorem profit_factor_score_no_losses (pnls daily : List ℚ)
    (hw : ∃ p ∈ pnls, 0 < p) (hl : ∀ p ∈ pnls, ¬ p < 0) :
    (compute_zylo_score pnls daily).raw_profit_factor = 0 ∧
    (compute_zylo_score pnls daily).profit_factor_score = 0 := by
  have hfil : pnls.filter (fun p => p < 0) = [] := by
    rw [List.filter_eq_nil_iff]
    intro a ha
    simpa using hl a ha
  have hraw : (compute_zylo_score pnls daily).raw_profit_factor = 0 :=
    pf_shape (pnls.filter (fun p => 0 < p)) (pnls.filter (fun p => p < 0)) hfil
  have hs : (compute_zylo_score pnls daily).profit_factor_score =
      scale_linear (compute_zylo_score pnls daily).raw_profit_factor 1 (5/2) := rfl
  refine ⟨hraw, ?_⟩
  rw [hs, hraw]; unfold scale_linear clamp01; norm_num [min_def, max_def]

/-- Witness for the C2 amended theorem at the one-trade set `[10]`. -/
theorem profit_factor_score_no_losses_witness :
    (∃ p ∈ ([10] : List ℚ), 0 < p) ∧
    (compute_zylo_score [10] [10]).raw_profit_factor = 0 ∧
    (compute_zylo_score [10] [10]).profit_factor_score = 0 :=
  ⟨⟨10, by simp, by norm_num⟩,
   profit_factor_score_no_losses [10] [10] ⟨10, by simp, by norm_num⟩
     (by intro p hp; simp at hp; subst hp; norm_num)⟩

/-- The clamped weighted overall of five `[0, 100]` component scores equals
the unclamped weighted sum and is itself in `[0, 100]`. -/
theorem weighted_overall_shape (a b c d e : ℚ)
    (ha : 0 ≤ a ∧ a ≤ 100) (hb : 0 ≤ b ∧ b ≤ 100) (hc : 0 ≤ c ∧ c ≤ 100)
    (hd : 0 ≤ d ∧ d ≤ 100) (he : 0 ≤ e ∧ e ≤ 100) :
    max 0 (min 100 (a * (24/100) + b * (22/100) + c * (18/100) + d * (18/100) +
        e * (18/100))) =
      a * (24/100) + b * (22/100) + c * (18/100) + d * (18/100) + e * (18/100) ∧
    (0 ≤ max 0 (min 100 (a * (24/100) + b * (22/100) + c * (18/100) + d * (18/100) +
        e * (18/100))) ∧
     max 0 (min 100 (a * (24/100) + b * (22/100) + c * (18/100) + d * (18/100) +
        e * (18/100))) ≤ 100) := by
  obtain ⟨ha0, ha1⟩ := ha
  obtain ⟨hb0, hb1⟩ := hb
  obtain ⟨hc0, hc1⟩ := hc
  obtain ⟨hd0, hd1⟩ := hd
  obtain ⟨he0, he1⟩ := he
  have hge : 0 ≤ a * (24/100) + b * (22/100) + c * (18/100) + d * (18/100) + e * (18/100) := by
    nlinarith
  have hle : a * (24/100) + b * (22/100) + c * (18/100) + d * (18/100) + e * (18/100) ≤ 100 := by
    nlinarith
  rw [min_eq_right hle, max_eq_right hge]
  exact ⟨rfl, hge, hle⟩

/-- C9: for every input (the empty trade set included), the five component
scores of `compute_zylo_score` are each in `[0, 100]`; the overall score
equals the weighted sum with weights 0.24 / 0.22 / 0.18 / 0.18 / 0.18 (the
final clamp never alters it), and it lies in `[0, 100]`.  The embedding is
total: no division error can occur, every division being guarded exactly
as in the source. -/
theorem zylo_score_overall (pnls daily : List ℚ) :
    (compute_zylo_score pnls daily).overall =
      (compute_zylo_score pnls daily).win_pct_score * (24/100) +
      (compute_zylo_score pnls daily).profit_factor_score * (22/100) +
      (compute_zylo_score pnls daily).win_loss_score * (18/100) +
      (compute_zylo_score pnls daily).consistency_score * (18/100) +
      (compute_zylo_score pnls daily).drawdown_score * (18/100) ∧
    (0 ≤ (compute_zylo_score pnls daily).win_pct_score ∧
      (compute_zylo_score pnls daily).win_pct_score ≤ 100) ∧
    (0 ≤ (compute_zylo_score pnls daily).profit_factor_score ∧
      (compute_zylo_score pnls daily).profit_factor_score ≤ 100) ∧
    (0 ≤ (compute_zylo_score pnls daily).win_loss_score ∧
      (compute_zylo_score pnls daily).win_loss_score ≤ 100) ∧
    (0 ≤ (compute_zylo_score pnls daily).consistency_score ∧
      (compute_zylo_score pnls daily).consistency_score ≤ 100) ∧
    (0 ≤ (compute_zylo_score pnls daily).drawdown_score ∧
      (compute_zylo_score pnls daily).drawdown_score ≤ 100) ∧
    (0 ≤ (compute_zylo_score pnls daily).overall ∧
      (compute_zylo_score pnls daily).overall ≤ 100) := by
  have hw : 0 ≤ (compute_zylo_score pnls daily).win_pct_score ∧
      (compute_zylo_score pnls daily).win_pct_score ≤ 100 := scale_linear_mem _ _ _
  have hpf : 0 ≤ (compute_zylo_score pnls daily).profit_factor_score ∧
      (compute_zylo_score pnls daily).profit_factor_score ≤ 100 := scale_linear_mem _ _ _
  have hwl : 0 ≤ (compute_zylo_score pnls daily).win_loss_score ∧
      (compute_zylo_score pnls daily).win_loss_score ≤ 100 := scale_linear_mem _ _ _
  have hcons : 0 ≤ (compute_zylo_score pnls daily).consistency_score ∧
      (compute_zylo_score pnls daily).consistency_score ≤ 100 := scale_linear_mem _ _ _
  have hdd := zylo_drawdown_score_mem pnls daily
  have hsh := weighted_overall_shape _ _ _ _ _ hw hpf hwl hcons hdd
  exact ⟨hsh.1, hw, hpf, hwl, hcons, hdd, hsh.2⟩

/-- Every element of `l - runningMaxFrom m l` (elementwise) is ≤ 0: each
element is dominated by the running maximum that includes it. -/
theorem zipWith_sub_runningMaxFrom_nonpos (l : List ℚ) (m : ℚ) :
    ∀ x ∈ List.zipWith (fun a b => a - b) l (runningMaxFrom m l), x ≤ 0 := by
  induction l generalizing m with
  | nil => intro x hx; simp [runningMaxFrom] at hx
  | cons a t ih =>
    intro x hx
    rw [runningMaxFrom, List.zipWith_cons_cons, List.mem_cons] at hx
    cases hx with
    | inl h =>
      subst h
      have := le_max_right m a
      linarith
    | inr h => exact ih (max m a) x h

/-- Every element of `l - runningMax l` (elementwise) is ≤ 0. -/
theorem zipWith_sub_runningMax_nonpos (l : List ℚ) :
    ∀ x ∈ List.zipWith (fun a b => a - b) l (runningMax l), x ≤ 0 := by
  cases l with
  | nil => intro x hx; simp [runningMax] at hx
  | cons a t =>
    intro x hx
    rw [runningMax, List.zipWith_cons_cons, List.mem_cons] at hx
    cases hx with
    | inl h => subst h; simp
    | inr h => exact zipWith_sub_runningMaxFrom_nonpos t a x h

/-- C7: for every daily PnL sequence, the drawdown series (cumulative
equity minus the running maximum of cumulative equity up to and including
each point) is ≤ 0 at every element, and `_max_drawdown` applied to the
equity curve returns exactly the absolute value of the minimum of that
series. -/
theorem drawdown_invariant (pnl : List ℚ) :
    (∀ x ∈ drawdownSeries pnl, x ≤ 0) ∧
    max_drawdown_of (cumsum pnl) = |seriesMin (drawdownSeries pnl)| := by
  constructor
  · exact zipWith_sub_runningMax_nonpos (cumsum pnl)
  · unfold max_drawdown_of drawdownSeries
    split
    · rename_i h
      rw [List.isEmpty_iff] at h
      rw [h]
      simp [runningMax, seriesMin]
    · rfl

/-- Witness for C7: the PnL sequence `[5, -10]` has drawdown series
`[0, -10]`, and its member `-10` is ≤ 0 by the theorem. -/
theorem drawdown_invariant_witness :
    ((-10 : ℚ) ∈ drawdownSeries [5, -10]) ∧ ((-10 : ℚ) ≤ 0) :=
  ⟨by norm_num [drawdownSeries, cumsum, cumsumFrom, runningMax, runningMaxFrom],
   (drawdown_invariant [5, -10]).1 (-10)
     (by norm_num [drawdownSeries, cumsum, cumsumFrom, runningMax, runningMaxFrom])⟩

/-- Unfolding equation: a leading win extends the count. -/
theorem countLeadingWins_true (xs : List Bool) :
    countLeadingWins (true :: xs) = countLeadingWins xs + 1 := rfl

/-- Unfolding equation: a leading non-win stops the count at 0. -/
theorem countLeadingWins_false (xs : List Bool) :
    countLeadingWins (false :: xs) = 0 := rfl

/-- The counted leading wins really are a prefix of `true`s. -/
theorem countLeadingWins_leads (l : List Bool) :
    ∃ t, l = List.replicate (countLeadingWins l) true ++ t := by
  induction l with
  | nil => exact ⟨[], rfl⟩
  | cons w t ih =>
    cases w with
    | false => exact ⟨false :: t, rfl⟩
    | true =>
      obtain ⟨u, hu⟩ := ih
      refine ⟨u, ?_⟩
      rw [countLeadingWins_true, List.replicate_succ, List.cons_append]
      rw [← hu]

/-- No prefix of `true`s is longer than the counted leading wins. -/
theorem le_countLeadingWins (n : Nat) (l t : List Bool)
    (h : l = List.replicate n true ++ t) : n ≤ countLeadingWins l := by
  induction n generalizing l with
  | zero => exact Nat.zero_le _
  | succ k ih =>
    subst h
    rw [List.replicate_succ, List.cons_append, countLeadingWins_true]
    have := ih (List.replicate k true ++ t) rfl
    omega

/-- The maximal run of `true`s in a list (specification-side recursion). -/
def mrs : List Bool → Nat
  | [] => 0
  | w :: xs => max (countLeadingWins (w :: xs)) (mrs xs)

/-- The leading-run length is at most the maximal run length. -/
theorem countLeadingWins_le_mrs (l : List Bool) : countLeadingWins l ≤ mrs l := by
  cases l with
  | nil => exact Nat.le_refl 0
  | cons w xs => exact le_max_left _ _

/-- Extending the list in front cannot shrink the maximal run. -/
theorem mrs_le_cons (w : Bool) (xs : List Bool) : mrs xs ≤ mrs (w :: xs) :=
  le_max_right _ _

/-- Closed form of the record-streak loop: with a pending run `run` already
recorded in `rec`, the loop returns the maximum of `rec`, the pending run
extended by the leading wins, and the maximal interior run. -/
theorem recordRun_eq (l : List Bool) : ∀ run rec : Nat, run ≤ rec →
    recordRun l run rec = max rec (max (run + countLeadingWins l) (mrs l)) := by
  induction l with
  | nil =>
    intro run rec h
    show rec = _
    simp only [countLeadingWins, mrs]
    omega
  | cons w xs ih =>
    intro run rec h
    cases w with
    | true =>
      show recordRun xs (run + 1) (max rec (run + 1)) = _
      rw [ih (run + 1) (max rec (run + 1)) (le_max_right _ _)]
      rw [countLeadingWins_true]
      show _ = max rec (max (run + (countLeadingWins xs + 1))
        (max (countLeadingWins (true :: xs)) (mrs xs)))
      rw [countLeadingWins_true]
      omega
    | false =>
      show recordRun xs 0 rec = _
      rw [ih 0 rec (Nat.zero_le _)]
      rw [countLeadingWins_false]
      show _ = max rec (max (run + 0) (max (countLeadingWins (false :: xs)) (mrs xs)))
      rw [countLeadingWins_false]
      have := countLeadingWins_le_mrs xs
      omega

/-- The maximal run is achieved: a run of `mrs l` consecutive `true`s
occurs in `l`. -/
theorem mrs_achieved (l : List Bool) :
    ∃ p s, l = p ++ List.replicate (mrs l) true ++ s := by
  induction l with
  | nil => exact ⟨[], [], rfl⟩
  | cons w xs ih =>
    rcases max_choice (countLeadingWins (w :: xs)) (mrs xs) with h | h
    · obtain ⟨t, ht⟩ := countLeadingWins_leads (w :: xs)
      refine ⟨[], t, ?_⟩
      show w :: xs = [] ++ List.replicate (max (countLeadingWins (w :: xs)) (mrs xs)) true ++ t
      rw [h, List.nil_append]
      exact ht
    · obtain ⟨p, s, hps⟩ := ih
      refine ⟨w :: p, s, ?_⟩
      show w :: xs = (w :: p) ++ List.replicate (max (countLeadingWins (w :: xs)) (mrs xs)) true ++ s
      rw [h, List.cons_append]
      exact congrArg (List.cons w) hps

/-- Any run of consecutive `true`s in `l` has length at most `mrs l`. -/
theorem le_mrs_of_run (l : List Bool) : ∀ (n : Nat) (p s : List Bool),
    l = p ++ List.replicate n true ++ s → n ≤ mrs l := by
  induction l with
  | nil =>
    intro n p s h
    have hlen := congrArg List.length h
    simp at hlen
    omega
  | cons w xs ih =>
    intro n p s h
    cases p with
    | nil =>
      rw [List.nil_append] at h
      have h1 : w :: xs = List.replicate n true ++ s := h
      have h2 : n ≤ countLeadingWins (w :: xs) := le_countLeadingWins n _ s h1
      exact h2.trans (countLeadingWins_le_mrs _)
    | cons q p' =>
      rw [List.cons_append, List.cons_append] at h
      have hx : xs = p' ++ List.replicate n true ++ s := (List.cons.injEq _ _ _ _).mp h |>.2
      exact (ih n p' s hx).trans (mrs_le_cons w xs)

/-- C8: in the daily streak computation a win day is a date with strictly
positive summed PnL (`pnl > 0`, so zero and negative days are non-wins);
the `current` streak is the length of the maximal all-win suffix of the
date-ordered win-flag list (consecutive win days ending at the most recent
date), the `record` streak is the length of the longest run of consecutive
win days anywhere, and the example sequence `[+10, +5, -3, +2, +2]` yields
current = 2 and record = 2. -/
theorem streaks_characterization (pnl : List ℚ) :
    (∃ p, winFlags pnl = p ++ List.replicate (compute_streaks_daily pnl).current true) ∧
    (∀ (n : Nat) (p : List Bool), winFlags pnl = p ++ List.replicate n true →
      n ≤ (compute_streaks_daily pnl).current) ∧
    (∃ p s, winFlags pnl = p ++ List.replicate (compute_streaks_daily pnl).record true ++ s) ∧
    (∀ (n : Nat) (p s : List Bool), winFlags pnl = p ++ List.replicate n true ++ s →
      n ≤ (compute_streaks_daily pnl).record) ∧
    compute_streaks_daily [10, 5, -3, 2, 2] = ⟨2, 2⟩ := by
  have hcur : (compute_streaks_daily pnl).current =
      countLeadingWins (winFlags pnl).reverse := rfl
  have hrec : (compute_streaks_daily pnl).record = mrs (winFlags pnl) := by
    show recordRun (winFlags pnl) 0 0 = _
    rw [recordRun_eq _ 0 0 (Nat.le_refl 0)]
    have := countLeadingWins_le_mrs (winFlags pnl)
    omega
  refine ⟨?_, ?_, ?_, ?_, by decide⟩
  · obtain ⟨t, ht⟩ := countLeadingWins_leads (winFlags pnl).reverse
    refine ⟨t.reverse, ?_⟩
    have h2 := congrArg List.reverse ht
    rw [List.reverse_reverse, List.reverse_append, List.reverse_replicate] at h2
    rw [hcur]
    exact h2
  · intro n p h
    rw [hcur]
    have h2 := congrArg List.reverse h
    rw [List.reverse_append, List.reverse_replicate] at h2
    exact le_countLeadingWins n _ p.reverse h2
  · rw [hrec]
    exact mrs_achieved (winFlags pnl)
  · intro n p s h
    rw [hrec]
    exact le_mrs_of_run (winFlags pnl) n p s h

/-- Witness for C8: in the example `[+10, +5, -3, +2, +2]` the run
`[true, true]` at the end bounds both streaks from below via the theorem. -/
theorem streaks_characterization_witness :
    2 ≤ (compute_streaks_daily [10, 5, -3, 2, 2]).current ∧
    2 ≤ (compute_streaks_daily [10, 5, -3, 2, 2]).record :=
  ⟨(streaks_characterization [10, 5, -3, 2, 2]).2.1 2 [true, true, false] (by decide),
   (streaks_characterization [10, 5, -3, 2, 2]).2.2.2.1 2 [true, true, false] [] (by decide)⟩
